import Mathlib

/-!
Shallow embedding of `src/app.py` (FastAPI LLM proxy) and verification of
its specification claims.

Modelling conventions:
* Python `Optional[T]` fields become `Option T`; Python truthiness of an
  optional value is made explicit at each use site.
* `temperature` is a Python float that is only carried through, never
  computed with, so it is embedded as `Rat` (any value type with decidable
  equality would do).
* A parsed JSON body is only passed through verbatim, never inspected, so
  the JSON value type is a type parameter `J`.
* The upstream server is an oracle: the buffered call's outcome is a value
  of `UpstreamOutcome J` and the streaming call's outcome a value of
  `UpstreamStream`; the handler functions below are the code's translation
  of those outcomes into the caller-visible response.
* A generator's caller-visible output is the list of its yielded strings,
  in yield order.
-/

namespace LLMTestWeb

/-- Process configuration (`app.py` lines 23-46): read once at startup,
immutable afterwards. `OPENAI_MODEL` is the already-resolved model
identifier (config value, startup-probe result, or the hardcoded
fallback). -/
structure Config where
  OPENAI_BASE_URL : String
  OPENAI_API_KEY : String
  OPENAI_MODEL : String
  DEFAULT_TEMPERATURE : Rat
  DEFAULT_MAX_TOKENS : Int

/-- Inbound `ChatRequest` (`app.py` lines 88-94). A message (`Dict[str, str]`) is
an association list of role/content strings. `stream` has pydantic default
`False`, but a caller may send an explicit `null`, hence `Option Bool`
with default `some false`. -/
structure ChatRequest where
  messages : List (List (String × String))
  temperature : Option Rat := none
  max_tokens : Option Int := none
  reasoning_effort : Option String := none
  stream : Option Bool := some false

/-- Python truthiness of the `Optional[bool]` field `request.stream`
(line 170): `None` and `False` are falsy. -/
def pyTruthy : Option Bool → Bool
  | some b => b
  | none => false

/-- The upstream payload built by `chat` (`app.py` lines 148-160).
`chat_template_kwargs`, when present, is the nested one-entry object
`{"reasoning_effort": <value>}`, embedded as an association list. -/
structure UpstreamPayload where
  model : String
  messages : List (List (String × String))
  temperature : Rat
  max_tokens : Int
  stream : Option Bool
  chat_template_kwargs : Option (List (String × String))
deriving DecidableEq

/-- Payload construction from `chat` (`app.py` lines 145-160).
Lines 145-146 use `is not None` checks, so an explicit `0` override is
kept. Line 157 uses Python truthiness of `Optional[str]`: `None` and the
empty string are both falsy, so `chat_template_kwargs` is attached only
for a supplied non-empty string. -/
def build_payload (cfg : Config) (req : ChatRequest) : UpstreamPayload :=
  { model := cfg.OPENAI_MODEL
    messages := req.messages
    temperature :=
      match req.temperature with
      | some t => t
      | none => cfg.DEFAULT_TEMPERATURE
    max_tokens :=
      match req.max_tokens with
      | some m => m
      | none => cfg.DEFAULT_MAX_TOKENS
    stream := req.stream
    chat_template_kwargs :=
      match req.reasoning_effort with
      | some s => if s.isEmpty then none else some [("reasoning_effort", s)]
      | none => none }

/-- Header construction from `chat` (`app.py` lines 162-167): the
`Authorization` header is attached only for a truthy (non-empty) API
key. -/
def build_headers (cfg : Config) : List (String × String) :=
  [("Content-Type", "application/json"), ("Accept", "application/json")]
    ++ (if cfg.OPENAI_API_KEY.isEmpty then []
        else [("Authorization", "Bearer " ++ cfg.OPENAI_API_KEY)])

/-- One upstream HTTP response as the buffered path sees it (httpx
`Response`): `text` is the decoded body, `json` is the result of
`response.json()` (`none` when the body is not valid JSON, in which case
`jsonErrorMsg` is the `str(e)` of the decode error it raises). -/
structure UpstreamResponse (J : Type) where
  status_code : Nat
  text : String
  json : Option J
  jsonErrorMsg : String

/-- Outcome of the buffered upstream POST (`app.py` line 178): a response,
or one of the exceptions the handlers on lines 187-192 distinguish. -/
inductive UpstreamOutcome (J : Type) where
  | response (r : UpstreamResponse J)
  | timeoutExc
  | connectExc
  | otherExc (msg : String)

/-- Caller-visible result of the `/api/chat` endpoint: a streaming
response (status code, media type, list of emitted chunks), a JSON body
with a status code, or an `HTTPException` (status code, detail) rendered
by FastAPI. -/
inductive ChatResponse (J : Type) where
  | streaming (status_code : Nat) (media_type : String) (events : List String)
  | json (status_code : Nat) (body : J)
  | httpException (status_code : Nat) (detail : String)
deriving DecidableEq

/-- Starlette's `HTTPException.__str__`, which formats the exception as
`"{status_code}: {detail}"`. It is what `str(e)` produces on line 192 when
`e` is an `HTTPException`. -/
def starletteHTTPExceptionStr (status_code : Nat) (detail : String) : String :=
  toString status_code ++ ": " ++ detail

/-- Buffered mode of `chat` (`app.py` lines 177-192).

Control flow detail that the embedding must reproduce:
`fastapi.HTTPException` is a subclass of `Exception`, and the
`raise HTTPException(status_code=response.status_code, ...)` on lines
183-186 sits inside the same `try` block as the POST. It is therefore
caught by the blanket `except Exception as e` on line 191 (the
`httpx.TimeoutException` / `httpx.ConnectError` clauses do not match it),
which re-raises `HTTPException(500, f"오류 발생: {str(e)}")`. So a non-200
upstream response reaches the caller as status 500, with the original
exception's `str` (see `starletteHTTPExceptionStr`) embedded in the
detail. Likewise a 200 response whose body fails `response.json()`
becomes a 500. -/
def chat_buffered (J : Type) (out : UpstreamOutcome J) : ChatResponse J :=
  match out with
  | .response r =>
    if r.status_code = 200 then
      match r.json with
      | some j => .json 200 j
      | none => .httpException 500 ("오류 발생: " ++ r.jsonErrorMsg)
    else
      .httpException 500
        ("오류 발생: " ++
          starletteHTTPExceptionStr r.status_code ("LLM 서버 오류: " ++ r.text))
  | .timeoutExc => .httpException 504 "LLM 서버 타임아웃"
  | .connectExc => .httpException 503 "LLM 서버에 연결할 수 없습니다"
  | .otherExc msg => .httpException 500 ("오류 발생: " ++ msg)

/-- How the upstream event stream ends, after a 200 response whose lines
were being iterated (`app.py` lines 122-131): normal closure, or one of
the exceptions the `except` clauses distinguish. -/
inductive StreamEnd where
  | closed
  | timeoutExc
  | connectExc
  | otherExc (msg : String)
deriving DecidableEq

/-- Outcome of the streaming upstream POST as `stream_chat_response`
observes it (`app.py` lines 116-131): an exception while opening the
connection (raised inside `async with`, before any response), or a
response with a status code, the body `aread()` would return, the decoded
lines `aiter_lines()` delivers before the stream ends, and how it ends. -/
inductive UpstreamStream where
  | openTimeout
  | openConnectError
  | openOtherError (msg : String)
  | response (status_code : Nat) (body : String) (lines : List String)
      (ending : StreamEnd)

/-- The error-event chunk yielded on `app.py` lines 119, 127, 129, 131:
`f"data: {{'error': '<msg>'}}\n\n"`. -/
def errorEvent (msg : String) : String :=
  "data: \x7b\x27error\x27: \x27" ++ msg ++ "\x27\x7d\n\n"

/-- Chunk yielded, if an exception terminates the line loop, by the
matching `except` clause (`app.py` lines 126-131); nothing on normal
closure. -/
def streamFailureEvent : StreamEnd → List String
  | .closed => []
  | .timeoutExc => [errorEvent "LLM 서버 타임아웃"]
  | .connectExc => [errorEvent "LLM 서버에 연결할 수 없습니다"]
  | .otherExc msg => [errorEvent ("오류 발생: " ++ msg)]

/-- Truthiness of `line.strip()` (`app.py` line 123): the stripped line is
non-empty exactly when the line contains some non-whitespace character. -/
def pyStripTruthy (line : String) : Bool :=
  line.data.any (fun c => !c.isWhitespace)

/-- The `async for line in response.aiter_lines()` loop (`app.py` lines
122-125): each line with truthy `line.strip()` is yielded as
`f"{line}\n"` (`aiter_lines` strips the terminator, the yield restores
`"\n"`); blank / whitespace-only lines are skipped. When the loop is cut
short by an exception, the lines already delivered have already been
yielded and the matching `except` clause yields one error event. -/
def relay_lines : List String → StreamEnd → List String
  | [], ending => streamFailureEvent ending
  | line :: rest, ending =>
      (if pyStripTruthy line then [line ++ "\n"] else []) ++ relay_lines rest ending

/-- The generator `stream_chat_response` (`app.py` lines 111-131), as the
list of chunks it yields for a given upstream behaviour. -/
def stream_chat_response : UpstreamStream → List String
  | .openTimeout => [errorEvent "LLM 서버 타임아웃"]
  | .openConnectError => [errorEvent "LLM 서버에 연결할 수 없습니다"]
  | .openOtherError msg => [errorEvent ("오류 발생: " ++ msg)]
  | .response status_code body lines ending =>
      if status_code ≠ 200 then [errorEvent ("LLM 서버 오류: " ++ body)]
      else relay_lines lines ending

/-- The `/api/chat` endpoint `chat` (`app.py` lines 134-192): builds the
payload and headers, then either wraps the streaming generator in a
`StreamingResponse` (default status 200, `media_type="text/event-stream"`,
lines 170-174) or runs the buffered path. The upstream behaviour in each
mode is an oracle argument. -/
def chat (J : Type) (cfg : Config) (req : ChatRequest)
    (streamUp : UpstreamStream) (bufUp : UpstreamOutcome J) : ChatResponse J :=
  let _payload := build_payload cfg req
  let _headers := build_headers cfg
  if pyTruthy req.stream then
    .streaming 200 "text/event-stream" (stream_chat_response streamUp)
  else
    chat_buffered J bufUp

/-- Test that the first character list is a prefix of the second. -/
def charsPrefix : List Char → List Char → Bool
  | [], _ => true
  | _ :: _, [] => false
  | a :: as, b :: bs => a == b && charsPrefix as bs

/-- Test that `sub` occurs contiguously inside the second list. -/
def charsInfix (sub : List Char) : List Char → Bool
  | [] => charsPrefix sub []
  | c :: rest => charsPrefix sub (c :: rest) || charsInfix sub rest

/-- Test that `sub` occurs contiguously inside `s`: `s` mentions `sub`. -/
def strMentions (s sub : String) : Bool :=
  charsInfix sub.data s.data

/-- Sample configuration, used to instantiate universally quantified
theorems at concrete inputs (values mirror the defaults in `app.py`). -/
def cfgEx : Config :=
  { OPENAI_BASE_URL := "http://localhost:8000/v1"
    OPENAI_API_KEY := ""
    OPENAI_MODEL := "gpt-oss-120b"
    DEFAULT_TEMPERATURE := 7/10
    DEFAULT_MAX_TOKENS := 2000 }

/-- Sample request relying on every default. -/
def reqDefaults : ChatRequest :=
  { messages := [[("role", "user"), ("content", "hi")]] }

/-- Sample request overriding `temperature` with an explicit zero and
`max_tokens` with an explicit value. -/
def reqOverrides : ChatRequest :=
  { reqDefaults with temperature := some 0, max_tokens := some 5 }

/-- Sample request with `stream=true`. -/
def reqStream : ChatRequest :=
  { reqDefaults with stream := some true }

/-- Sample request supplying a non-empty `reasoning_effort`. -/
def reqEffort : ChatRequest :=
  { reqDefaults with reasoning_effort := some "high" }

/-- The non-blank lines of `ls`, each restored to a newline-terminated
chunk: the chunk sequence a fault-free relay forwards. -/
def forwardedChunks (ls : List String) : List String :=
  (ls.filter pyStripTruthy).map (fun l => l ++ "\n")

theorem relay_lines_eq (ls : List String) (ending : StreamEnd) :
    relay_lines ls ending = forwardedChunks ls ++ streamFailureEvent ending := by
  induction ls with
  | nil => simp [relay_lines, forwardedChunks]
  | cons l rest ih =>
      by_cases h : pyStripTruthy l <;>
        simp [relay_lines, forwardedChunks, h, List.filter_cons, ih]

theorem strData_append (a b : String) : (a ++ b).data = a.data ++ b.data := by
  cases a; cases b; rfl

theorem charsPrefix_self_append (l t : List Char) : charsPrefix l (l ++ t) = true := by
  induction l with
  | nil => rfl
  | cons a as ih => simp [charsPrefix, ih]

theorem charsInfix_append (pre sub suf : List Char) :
    charsInfix sub (pre ++ sub ++ suf) = true := by
  induction pre with
  | nil =>
      cases sub with
      | nil => cases suf <;> simp [charsInfix, charsPrefix]
      | cons c cs =>
          simp only [List.nil_append, List.cons_append, charsInfix, Bool.or_eq_true]
          exact Or.inl (charsPrefix_self_append (c :: cs) suf)
  | cons c cs ih =>
      simp only [List.cons_append, charsInfix, Bool.or_eq_true]
      exact Or.inr (by simpa [List.append_assoc] using ih)

theorem errorEvent_mentions (pre body : String) :
    strMentions (errorEvent (pre ++ body)) body = true := by
  have h : (errorEvent (pre ++ body)).data
      = ("data: \x7b\x27error\x27: \x27".data ++ pre.data) ++ body.data
          ++ "\x27\x7d\n\n".data := by
    simp [errorEvent, strData_append, List.append_assoc]
  rw [strMentions, h]
  exact charsInfix_append _ _ _

/-- Claim C1 (code bug witness): evaluating the buffered path of `chat` at
an upstream 400 response with body `"bad request"`. The claim says the
caller receives the same status code (400) the upstream returned; the code
instead surfaces status 500, because the `HTTPException(400, ...)` raised
on `app.py` line 183 is itself caught by the blanket `except Exception`
on line 191 and replaced by `HTTPException(500, f"오류 발생: {str(e)}")`.
The upstream body survives only inside the stringified exception. -/
theorem claim_C1_upstream_status_swallowed :
    chat_buffered String (.response ⟨400, "bad request", none, ""⟩)
      = .httpException 500 "오류 발생: 400: LLM 서버 오류: bad request" := by
  decide

/-- Claim C2: in streaming mode, after a 200 upstream response whose
stream ends normally, the caller receives exactly the non-blank upstream
lines, in upstream order, each line's content unmodified (re-terminated
with the `"\n"` that `aiter_lines` had stripped), and every blank or
whitespace-only line dropped — `forwardedChunks` is literally
filter-then-map over the upstream line sequence, so no reordering,
duplication, or other transformation occurs. -/
theorem claim_C2_stream_passthrough (status_code : Nat) (body : String)
    (ls : List String) (h : status_code = 200) :
    stream_chat_response (.response status_code body ls .closed)
      = forwardedChunks ls := by
  subst h
  show relay_lines ls .closed = forwardedChunks ls
  rw [relay_lines_eq]
  simp [streamFailureEvent]

/-- Witness for claim C2 at a concrete upstream line sequence containing a
whitespace-only and an empty line. -/
theorem claim_C2_stream_passthrough_witness :
    stream_chat_response
        (.response 200 "" ["data: one", "  ", "", "data: two"] .closed)
      = ["data: one\n", "data: two\n"] := by
  have h := claim_C2_stream_passthrough 200 "" ["data: one", "  ", "", "data: two"] rfl
  rw [h]
  decide

/-- Claim C3: in buffered mode, an upstream 200 response whose body parses
as JSON is returned to the caller as that JSON value, verbatim, with
status 200. -/
theorem claim_C3_buffered_200_verbatim (J : Type) (r : UpstreamResponse J)
    (j : J) (hs : r.status_code = 200) (hj : r.json = some j) :
    chat_buffered J (.response r) = .json 200 j := by
  simp [chat_buffered, hs, hj]

/-- Witness for claim C3 at a concrete 200 response. -/
theorem claim_C3_buffered_200_verbatim_witness :
    chat_buffered String (.response ⟨200, "\x7b\x7d", some "upstream-json", ""⟩)
      = .json 200 "upstream-json" :=
  claim_C3_buffered_200_verbatim String ⟨200, "\x7b\x7d", some "upstream-json", ""⟩
    "upstream-json" rfl rfl

/-- Claim C4: the upstream payload's `model` field is always the resolved
process-wide model identifier, and no field of the caller's request can
change it (any two requests produce the same `model`). -/
theorem claim_C4_model_not_overridable (cfg : Config) (req : ChatRequest) :
    (build_payload cfg req).model = cfg.OPENAI_MODEL ∧
    ∀ req2 : ChatRequest, (build_payload cfg req).model = (build_payload cfg req2).model :=
  ⟨rfl, fun _ => rfl⟩

/-- Claim C5: the payload's `temperature` is the request's value when
present (an explicit zero included, since line 145 tests `is not None`),
otherwise the configured default; likewise `max_tokens`. -/
theorem claim_C5_sampling_overrides (cfg : Config) (req : ChatRequest) :
    (∀ t, req.temperature = some t → (build_payload cfg req).temperature = t) ∧
    (req.temperature = none →
      (build_payload cfg req).temperature = cfg.DEFAULT_TEMPERATURE) ∧
    (∀ m, req.max_tokens = some m → (build_payload cfg req).max_tokens = m) ∧
    (req.max_tokens = none →
      (build_payload cfg req).max_tokens = cfg.DEFAULT_MAX_TOKENS) := by
  refine ⟨fun t ht => ?_, fun ht => ?_, fun m hm => ?_, fun hm => ?_⟩
  · simp [build_payload, ht]
  · simp [build_payload, ht]
  · simp [build_payload, hm]
  · simp [build_payload, hm]

/-- Witness for claim C5: a zero `temperature` override is honored, and an
omitted field falls back to the configured default. -/
theorem claim_C5_sampling_overrides_witness :
    (build_payload cfgEx reqOverrides).temperature = 0 ∧
    (build_payload cfgEx reqDefaults).temperature = cfgEx.DEFAULT_TEMPERATURE ∧
    (build_payload cfgEx reqOverrides).max_tokens = 5 ∧
    (build_payload cfgEx reqDefaults).max_tokens = cfgEx.DEFAULT_MAX_TOKENS :=
  ⟨(claim_C5_sampling_overrides cfgEx reqOverrides).1 0 rfl,
   (claim_C5_sampling_overrides cfgEx reqDefaults).2.1 rfl,
   (claim_C5_sampling_overrides cfgEx reqOverrides).2.2.1 5 rfl,
   (claim_C5_sampling_overrides cfgEx reqDefaults).2.2.2 rfl⟩

/-- Claim C6: the payload carries `chat_template_kwargs` — the
reasoning-effort value nested under its fixed key, never a top-level
field — exactly when the caller supplied a non-empty `reasoning_effort`
(line 157 is a Python truthiness test, so `None` and `""` both omit it),
and the nested value is the supplied string. -/
theorem claim_C6_reasoning_effort (cfg : Config) (req : ChatRequest) :
    ((build_payload cfg req).chat_template_kwargs ≠ none ↔
      ∃ s, req.reasoning_effort = some s ∧ s ≠ "") ∧
    ∀ s, req.reasoning_effort = some s → s ≠ "" →
      (build_payload cfg req).chat_template_kwargs = some [("reasoning_effort", s)] := by
  constructor
  · cases h : req.reasoning_effort with
    | none => simp [build_payload, h]
    | some s =>
        by_cases he : s.isEmpty
        · have hs : s = "" := (String.isEmpty_iff s).mp he
          subst hs
          simp [build_payload, h, he]
        · have hs : s ≠ "" := fun e => by
            rw [e] at he; exact he ((String.isEmpty_iff "").mpr rfl)
          simp [build_payload, h, he, hs]
  · intro s hs hne
    have he : s.isEmpty = false := by
      cases hi : s.isEmpty
      · rfl
      · exact absurd ((String.isEmpty_iff s).mp hi) hne
    simp [build_payload, hs, he]

/-- Witness for claim C6 at a concrete supplied non-empty value. -/
theorem claim_C6_reasoning_effort_witness :
    (build_payload cfgEx reqEffort).chat_template_kwargs
      = some [("reasoning_effort", "high")] :=
  (claim_C6_reasoning_effort cfgEx reqEffort).2 "high" rfl (by decide)

/-- Claim C7 counterexample: the single error event emitted for a non-200
initial streaming response does not describe the upstream status, contrary
to the claim. At upstream status 404 with body `"not found"`, the caller's
whole stream is one event that does not contain the digits `404`, and the
output is bit-for-bit identical to what status 500 with the same body
produces, so nothing about the status is observable. -/
theorem claim_C7_counterexample :
    stream_chat_response (.response 404 "not found" [] .closed)
      = stream_chat_response (.response 500 "not found" [] .closed) ∧
    stream_chat_response (.response 404 "not found" [] .closed)
      = [errorEvent ("LLM 서버 오류: not found")] ∧
    strMentions (errorEvent ("LLM 서버 오류: not found")) "404" = false := by
  refine ⟨rfl, by decide, by decide⟩

/-- Claim C7 (amended): in streaming mode, for every upstream initial
response with status ≠ 200, the caller receives exactly one error event,
whose text embeds the upstream body (the upstream status code is not
included), with no forwarded lines before it, and the stream then
terminates. -/
theorem claim_C7_bad_status_single_event (status_code : Nat) (body : String)
    (lines : List String) (ending : StreamEnd) (h : status_code ≠ 200) :
    stream_chat_response (.response status_code body lines ending)
      = [errorEvent ("LLM 서버 오류: " ++ body)] ∧
    strMentions (errorEvent ("LLM 서버 오류: " ++ body)) body = true := by
  constructor
  · simp [stream_chat_response, h]
  · exact errorEvent_mentions "LLM 서버 오류: " body

/-- Witness for the amended claim C7 at upstream status 404: even with
pending lines and an abnormal ending, the output is the single
body-bearing error event. -/
theorem claim_C7_bad_status_single_event_witness :
    stream_chat_response (.response 404 "nf" ["data: x"] .timeoutExc)
      = [errorEvent ("LLM 서버 오류: nf")] ∧
    strMentions (errorEvent ("LLM 서버 오류: nf")) "nf" = true :=
  claim_C7_bad_status_single_event 404 "nf" ["data: x"] .timeoutExc (by decide)

/-- Claim C8: when the upstream stream fails after the 200 response (by
timeout, connection loss, or any other exception), the caller receives the
already-forwarded chunks followed by exactly one error event, and nothing
after it. -/
theorem claim_C8_midstream_failure (body : String) (lines : List String)
    (ending : StreamEnd) (h : ending ≠ .closed) :
    ∃ msg, stream_chat_response (.response 200 body lines ending)
      = forwardedChunks lines ++ [errorEvent msg] := by
  have hr : stream_chat_response (.response 200 body lines ending)
      = relay_lines lines ending := by
    simp [stream_chat_response]
  cases ending with
  | closed => exact absurd rfl h
  | timeoutExc => exact ⟨"LLM 서버 타임아웃", by rw [hr, relay_lines_eq]; rfl⟩
  | connectExc => exact ⟨"LLM 서버에 연결할 수 없습니다", by rw [hr, relay_lines_eq]; rfl⟩
  | otherExc m => exact ⟨"오류 발생: " ++ m, by rw [hr, relay_lines_eq]; rfl⟩

/-- Witness for claim C8: the upstream drops the connection after two
delivered lines; the caller has those two lines, then one error event. -/
theorem claim_C8_midstream_failure_witness :
    ∃ msg, stream_chat_response
        (.response 200 "" ["data: a", "", "data: b"] .connectExc)
      = ["data: a\n", "data: b\n"] ++ [errorEvent msg] := by
  obtain ⟨msg, hm⟩ :=
    claim_C8_midstream_failure "" ["data: a", "", "data: b"] .connectExc (by decide)
  refine ⟨msg, ?_⟩
  rw [hm]
  have he : forwardedChunks ["data: a", "", "data: b"]
      = ["data: a\n", "data: b\n"] := by decide
  rw [he]

/-- Claim C9: in buffered mode a connect failure surfaces as HTTP 503, a
timeout as HTTP 504 and any other unexpected exception as HTTP 500, and
every possible upstream outcome translates into a caller-visible
response — either an `HTTPException` or a 200 JSON body — never an
unhandled failure. -/
theorem claim_C9_buffered_failure_mapping (J : Type) (msg : String) :
    chat_buffered J .connectExc = .httpException 503 "LLM 서버에 연결할 수 없습니다" ∧
    chat_buffered J .timeoutExc = .httpException 504 "LLM 서버 타임아웃" ∧
    chat_buffered J (.otherExc msg) = .httpException 500 ("오류 발생: " ++ msg) ∧
    ∀ out : UpstreamOutcome J,
      (∃ s d, chat_buffered J out = .httpException s d) ∨
      ∃ j, chat_buffered J out = .json 200 j := by
  refine ⟨rfl, rfl, rfl, fun out => ?_⟩
  cases out with
  | response r =>
      by_cases h : r.status_code = 200
      · cases hj : r.json with
        | some j => exact Or.inr ⟨j, by simp [chat_buffered, h, hj]⟩
        | none =>
            exact Or.inl ⟨500, "오류 발생: " ++ r.jsonErrorMsg,
              by simp [chat_buffered, h, hj]⟩
      · exact Or.inl ⟨500,
          "오류 발생: " ++
            starletteHTTPExceptionStr r.status_code ("LLM 서버 오류: " ++ r.text),
          by simp [chat_buffered, h]⟩
  | timeoutExc => exact Or.inl ⟨504, "LLM 서버 타임아웃", rfl⟩
  | connectExc => exact Or.inl ⟨503, "LLM 서버에 연결할 수 없습니다", rfl⟩
  | otherExc m => exact Or.inl ⟨500, "오류 발생: " ++ m, rfl⟩

/-- Claim C10: whenever `request.stream` is `true`, the caller's HTTP
response is a `StreamingResponse` with status 200 and media type
`text/event-stream`, whatever the upstream does in either mode — upstream
failure can only show up inside the emitted stream content. -/
theorem claim_C10_streaming_committed_200 (J : Type) (cfg : Config)
    (req : ChatRequest) (streamUp : UpstreamStream) (bufUp : UpstreamOutcome J)
    (h : req.stream = some true) :
    chat J cfg req streamUp bufUp
      = .streaming 200 "text/event-stream" (stream_chat_response streamUp) := by
  simp [chat, pyTruthy, h]

/-- Witness for claim C10: with `stream=true` and an upstream connection
that fails before any byte arrives, the caller still gets a 200
`text/event-stream` response, whose only content is the error event. -/
theorem claim_C10_streaming_committed_200_witness :
    chat String cfgEx reqStream .openConnectError .timeoutExc
      = .streaming 200 "text/event-stream"
          [errorEvent "LLM 서버에 연결할 수 없습니다"] := by
  have h := claim_C10_streaming_committed_200 String cfgEx reqStream
    .openConnectError .timeoutExc rfl
  rw [h]
  rfl

end LLMTestWeb
